import Mathlib

/-
Verification of the venkytv/rss-feeds repository (two Go services:
hackernews/hackernews.go and atlasobscura/atlasobscura.go) against its
natural-language specification.

The Go code is shallowly embedded: machine integers become Int, time instants
and durations become Int (the unit is irrelevant to every property proved),
fallible operations become Except String, the go-cache store becomes an
explicit association-list state threaded through the calls, and the
nondeterministic order in which the worker-pool results reach the aggregating
loop becomes an explicit list parameter (named arrival) that theorems
constrain to be a permutation of the input batch.  External collaborators that
the spec places out of scope (the JSON decoder, the upstream HTTP transport,
the Atom serializer) become function parameters of the definitions that call
them.
-/

/-- Boolean success test for Except, used to state batch outcomes. -/
def exOk {ε α : Type} : Except ε α → Bool
  | Except.ok _ => true
  | Except.error _ => false

/-- go-cache sentinel: Set with this duration stores an entry that never
expires (the library represents it as -1). -/
def NoExpiration : Int := -1

/-- go-cache sentinel: Set with this duration falls back to the default
expiration the cache was created with (the library represents it as 0). -/
def DefaultExpiration : Int := 0

/-- One stored entry of the patrickmn/go-cache store: the value and the
absolute expiry instant, 0 meaning no expiry. -/
structure CacheItem (α : Type) where
  val : α
  expiration : Int
deriving DecidableEq

/-- Association-list lookup, first binding wins; models the map read. -/
def cacheFind {κ α : Type} [DecidableEq κ] (k : κ) :
    List (κ × CacheItem α) → Option (CacheItem α)
  | [] => none
  | (k2, item) :: rest => if k = k2 then some item else cacheFind k rest

/-- The patrickmn/go-cache store: the default expiration chosen at
construction and the key to item map, modeled as an association list whose
most recent binding for a key shadows the older ones.  The cleanup janitor is
irrelevant to Get, which checks expiry itself on every read. -/
structure GoCache (κ α : Type) where
  defaultExpiration : Int
  items : List (κ × CacheItem α)
deriving DecidableEq

/-- cache.New: a default expiration of 0 is normalized to NoExpiration by the
library; the store starts empty. -/
def GoCache.new {κ α : Type} (de : Int) : GoCache κ α :=
  { defaultExpiration := if de = 0 then NoExpiration else de, items := [] }

/-- cache.Get at instant now: a hit requires the entry to exist and, when its
expiration is positive, to not lie strictly in the past. -/
def GoCache.get {κ α : Type} [DecidableEq κ] (c : GoCache κ α) (now : Int)
    (k : κ) : Option α :=
  match cacheFind k c.items with
  | none => none
  | some item =>
      if 0 < item.expiration ∧ item.expiration < now then none
      else some item.val

/-- cache.Set at instant now with duration d: DefaultExpiration falls back to
the default the cache was built with; only a positive duration yields an
absolute expiry instant, anything else stores 0 (never expires). -/
def GoCache.set {κ α : Type} [DecidableEq κ] (c : GoCache κ α) (now : Int)
    (k : κ) (v : α) (d : Int) : GoCache κ α :=
  let d2 := if d = DefaultExpiration then c.defaultExpiration else d
  let e := if 0 < d2 then now + d2 else 0
  { c with items := (k, { val := v, expiration := e }) :: c.items }

/-- Story record of hackernews.go, as decoded from the item endpoint.  The Go
zero value (Inhabited default) has 0 and empty strings in every field. -/
structure Story where
  ID : Int
  By : String
  Score : Int
  Timestamp : Int
  Title : String
  URL : String
  Text : String
deriving DecidableEq, Inhabited

/-- The order imposed by the aggregating sort of getStories:
sort.Slice with less i j iff Timestamp i is greater than Timestamp j, hence a
sorted output is pairwise non-increasing in Timestamp. -/
def storyLater (a b : Story) : Prop := b.Timestamp ≤ a.Timestamp

instance : DecidableRel storyLater := fun _ _ => Int.decLe _ _

instance : IsTotal Story storyLater := ⟨fun a b => le_total b.Timestamp a.Timestamp⟩

instance : IsTrans Story storyLater := ⟨fun _ _ _ h1 h2 => le_trans h2 h1⟩

/-- An upstream HTTP response as far as hackernews.go looks at it: the status
code and the already-read body. -/
structure HTTPResponse where
  statusCode : Int
  body : String
deriving DecidableEq

/-- getStory (hackernews.go lines 87 to 108).  The network interaction of
client.Get plus ReadAll is the resp parameter (a transport or read failure is
the error case); decode is the external json.Unmarshal whose returned error
the source discards, so a body that fails to decode leaves the zero Story.
The HTTP status code of the response is never inspected.  The ID field is then
overwritten with the requested id. -/
def getStory (decode : String → Option Story) (resp : Except String HTTPResponse)
    (id : Int) : Except String Story :=
  match resp with
  | Except.error e => Except.error e
  | Except.ok r => Except.ok { (decode r.body).getD default with ID := id }

/-- getStoryFromCache (hackernews.go lines 72 to 85).  The source keys the
cache by strconv.Itoa(int(id)); Itoa is injective on int, so the model keys by
the id itself.  On a hit the cached record is returned and no fetch happens;
on a miss, fetch (standing for getStory against the live api) runs, an error
is returned as is, and a fetched story is stored with cache.NoExpiration.
The Bool reports whether the network fetch was invoked. -/
def getStoryFromCache (fetch : Int → Except String Story) (id : Int)
    (storyCache : GoCache Int Story) (now : Int) :
    Except String Story × GoCache Int Story × Bool :=
  match storyCache.get now id with
  | some story => (Except.ok story, storyCache, false)
  | none =>
      match fetch id with
      | Except.error e => (Except.error e, storyCache, true)
      | Except.ok story =>
          (Except.ok story, storyCache.set now id story NoExpiration, true)

/-- The fan-out/fan-in collection loop of getStories (hackernews.go lines 134
to 183) collapsed to one admissible interleaving: arrival lists the story ids
in the order their lookups complete and reach the aggregating loop (when no
deadline fires the pool delivers exactly one result per input id, in some
permutation of the input), and the shared story cache is threaded through the
lookups in that order.  The loop stops at the first error; cache writes
already performed stay. -/
def getStoriesCollect (fetch : Int → Except String Story) (now : Int) :
    List Int → GoCache Int Story → Except String (List Story) × GoCache Int Story
  | [], c => (Except.ok [], c)
  | id :: rest, c =>
      match getStoryFromCache fetch id c now with
      | (Except.error e, c2, _) => (Except.error e, c2)
      | (Except.ok s, c2, _) =>
          match getStoriesCollect fetch now rest c2 with
          | (Except.error e, c3) => (Except.error e, c3)
          | (Except.ok ss, c3) => (Except.ok (s :: ss), c3)

/-- getStories (hackernews.go lines 134 to 189): collect every lookup result,
abort on the first error, and otherwise sort the stories by Timestamp with the
most recent first. -/
def getStories (fetch : Int → Except String Story) (now : Int)
    (arrival : List Int) (c : GoCache Int Story) :
    Except String (List Story) × GoCache Int Story :=
  match getStoriesCollect fetch now arrival c with
  | (Except.error e, c2) => (Except.error e, c2)
  | (Except.ok ss, c2) => (Except.ok (List.insertionSort storyLater ss), c2)

/-- getTopStoryIDs (hackernews.go lines 110 to 132): one GET against the
story-list endpoint (listResp carries its outcome; the body decode is the
external json.Unmarshal, its already-decoded id list being the ok payload),
then an in-place ascending sort of the ids. -/
def getTopStoryIDs (listResp : Except String (List Int)) :
    Except String (List Int) :=
  match listResp with
  | Except.error e => Except.error e
  | Except.ok ids => Except.ok (List.insertionSort (fun a b : Int => a ≤ b) ids)

/-- getTopStories (hackernews.go lines 191 to 205): fetch and sort the id
list, then run the story pool over it.  sched turns the sorted id list into
the arrival order of the pool results (a schedule of the workers). -/
def getTopStories (listResp : Except String (List Int))
    (fetch : Int → Except String Story) (sched : List Int → List Int)
    (now : Int) (c : GoCache Int Story) :
    Except String (List Story) × GoCache Int Story :=
  match getTopStoryIDs listResp with
  | Except.error e => (Except.error e, c)
  | Except.ok ids => getStories fetch now (sched ids) c

/-- One URL rewrite of unrollTwitterThread (hackernews.go lines 207 to 220):
the regex matches URLs under the twitter.com or x.com hosts and rewrites them
onto the threader host, keeping the trailing path. -/
def unrollOne (u : String) : String :=
  if "https://twitter.com/".isPrefixOf u then "https://nitter.net/" ++ u.drop 20
  else if "https://x.com/".isPrefixOf u then "https://nitter.net/" ++ u.drop 14
  else u

/-- unrollTwitterThread applied over the story list. -/
def unrollTwitterThread (stories : List Story) : List Story :=
  stories.map (fun s => { s with URL := unrollOne s.URL })

/-- The two reply shapes of the hackernews request handler. -/
inductive HTTPReply where
  | ok (body : String)
  | internalError (msg : String)
deriving DecidableEq

/-- storyHandler (hackernews.go lines 222 to 263): every request runs the
full getTopStories pipeline; a pipeline error becomes a 500 reply, otherwise
the twitter rewrite runs and render (the external feed assembly plus Atom
serialization, out of scope per the spec) produces the body. -/
def storyHandler (listResp : Except String (List Int))
    (fetch : Int → Except String Story) (sched : List Int → List Int)
    (now : Int) (c : GoCache Int Story) (render : List Story → String) :
    HTTPReply × GoCache Int Story :=
  match getTopStories listResp fetch sched now c with
  | (Except.error e, c2) => (HTTPReply.internalError e, c2)
  | (Except.ok stories, c2) =>
      (HTTPReply.ok (render (unrollTwitterThread stories)), c2)

/-- FeedItem of atlasobscura.go: title text, candidate URL and creation
instant of one normalized tweet. -/
structure FeedItem where
  Title : String
  Url : String
  Created : Int
deriving DecidableEq, Inhabited

/-- The order imposed by the aggregating sort of fixAllUrls: sort.Slice with
less i j iff Created i is strictly after Created j, hence a sorted output is
pairwise non-increasing in Created. -/
def itemLater (a b : FeedItem) : Prop := b.Created ≤ a.Created

instance : DecidableRel itemLater := fun _ _ => Int.decLe _ _

instance : IsTotal FeedItem itemLater := ⟨fun a b => le_total b.Created a.Created⟩

instance : IsTrans FeedItem itemLater := ⟨fun _ _ _ h1 h2 => le_trans h2 h1⟩

/-- The literal characters the utm regex anchors on. -/
def utmPat : List Char := ['?', 'u', 't', 'm', '_']

/-- Whether the Go regex backslash-question utm_ dot-star dollar matches at
this position: the text starts with the literal question mark utm_ and the
remainder holds no newline (dot does not cross newlines and dollar is end of
text in RE2 without the multiline flag). -/
def utmMatchAt (cs : List Char) : Bool :=
  utmPat.isPrefixOf cs && !((cs.drop 5).contains '\n')

/-- ReplaceAllString of that regex with the empty string, over the character
list: the leftmost match runs to the end of the text, so everything from the
first matching position on is deleted and everything before it is kept. -/
def utmStripAux : List Char → List Char
  | [] => []
  | c :: rest => if utmMatchAt (c :: rest) then [] else c :: utmStripAux rest

/-- utm_re.ReplaceAllString(url, "") of atlasobscura.go line 55 wrapped back
into String. -/
def stripUtm (s : String) : String := String.mk (utmStripAux s.data)

/-- The per-item body of fixer (atlasobscura.go lines 96 to 113): resolve is
the external client.Head call, whose ok payload is the final URL of the
request after redirects (resp.Request.URL.String()).  On success the item URL
is replaced with the resolved URL stripped of its utm suffix; on error the
item is left as is and the error is handed to the aggregator alongside it. -/
def fixer (resolve : String → Except String String) (item : FeedItem) :
    FeedItem × Option String :=
  match resolve item.Url with
  | Except.ok u => ({ item with Url := stripUtm u }, none)
  | Except.error e => (item, some e)

/-- The fan-out/fan-in collection loop of fixAllUrls (atlasobscura.go lines
115 to 141) collapsed to one admissible interleaving: arrival lists the items
in the order their results reach the aggregating loop, which stops at the
first error. -/
def fixAllCollect (resolve : String → Except String String) :
    List FeedItem → Except String (List FeedItem)
  | [] => Except.ok []
  | item :: rest =>
      match fixer resolve item with
      | (_, some e) => Except.error e
      | (item2, none) =>
          match fixAllCollect resolve rest with
          | Except.error e => Except.error e
          | Except.ok xs => Except.ok (item2 :: xs)

/-- fixAllUrls (atlasobscura.go lines 115 to 147): collect every fixer
result, abort on the first error, otherwise sort the items by Created with
the most recent first. -/
def fixAllUrls (resolve : String → Except String String)
    (arrival : List FeedItem) : Except String (List FeedItem) :=
  match fixAllCollect resolve arrival with
  | Except.error e => Except.error e
  | Except.ok out => Except.ok (List.insertionSort itemLater out)

/-- Outcome of a code path that may terminate the whole process: log.Fatal
exits instead of returning. -/
inductive CrashOr (α : Type) where
  | ok (a : α)
  | fatal (msg : String)

/-- fetchFeedItems (atlasobscura.go lines 205 to 241).  readerItems stands
for the reader.getTweets call followed by the normalizer loop (regex split and
timestamp parse, which only drop items and are out of scope here): its error
case is a getTweets failure, its ok payload the normalized records in arrival
order.  A reader error is returned to the caller together with the empty item
list; a fixAllUrls error hits the log.Fatal on line 237 and kills the
process. -/
def fetchFeedItems (readerItems : Except String (List FeedItem))
    (resolve : String → Except String String) :
    CrashOr (Except String (List FeedItem)) :=
  match readerItems with
  | Except.error e => CrashOr.ok (Except.error e)
  | Except.ok items =>
      match fixAllUrls resolve items with
      | Except.error e => CrashOr.fatal e
      | Except.ok fixed => CrashOr.ok (Except.ok fixed)

/-- cacheFeed (atlasobscura.go lines 243 to 262): on a fetchFeedItems error
the failure is logged and the cache is left untouched; on success the feed
document built by the external genFeed (build) is stored under the key feed
with cache.NoExpiration. -/
def cacheFeed (readerItems : Except String (List FeedItem))
    (resolve : String → Except String String) (build : List FeedItem → String)
    (now : Int) (c : GoCache String String) : CrashOr (GoCache String String) :=
  match fetchFeedItems readerItems resolve with
  | CrashOr.fatal m => CrashOr.fatal m
  | CrashOr.ok (Except.error _) => CrashOr.ok c
  | CrashOr.ok (Except.ok items) =>
      CrashOr.ok (c.set now "feed" (build items) NoExpiration)

/-- What a request observes from the atlasobscura serve path. -/
inductive ServeOutcome where
  | served (body : String)
  | fatalExit (msg : String)
  | panicked
deriving DecidableEq

/-- fetchCachedFeed (atlasobscura.go lines 264 to 272): a cache hit is served
as is; on a miss cacheFeed runs inline (the Bool reports that the fill ran),
and the cache is read again.  The second read ignores the found flag and
type-asserts feed.(string), so when the fill failed to populate the key the
assertion is on a nil interface value and the handler panics. -/
def fetchCachedFeed (readerItems : Except String (List FeedItem))
    (resolve : String → Except String String) (build : List FeedItem → String)
    (now : Int) (c : GoCache String String) :
    ServeOutcome × GoCache String String × Bool :=
  match c.get now "feed" with
  | some feed => (ServeOutcome.served feed, c, false)
  | none =>
      match cacheFeed readerItems resolve build now c with
      | CrashOr.fatal m => (ServeOutcome.fatalExit m, c, true)
      | CrashOr.ok c2 =>
          match c2.get now "feed" with
          | some feed => (ServeOutcome.served feed, c2, true)
          | none => (ServeOutcome.panicked, c2, true)

/-- CacheTime of hackernews.go, 24 hours, in seconds. -/
def CacheTime : Int := 24 * 60 * 60

/-- The story cache of hackernews main: cache.New(CacheTime, 2 * CacheTime). -/
def hnStoryCache : GoCache Int Story := GoCache.new CacheTime

/-- The feed cache of atlasobscura main: cache.New(0, 0). -/
def aoFeedCache : GoCache String String := GoCache.new 0

/-- Concrete story used by several fixtures. -/
def story42 : Story :=
  { ID := 42, By := "alice", Score := 10, Timestamp := 1000,
    Title := "t42", URL := "http://u42", Text := "" }

/-- Concrete story with id 1. -/
def storyOne : Story :=
  { ID := 1, By := "bob", Score := 5, Timestamp := 2000,
    Title := "t1", URL := "http://u1", Text := "" }

/-- Concrete story with id 2, older than storyOne. -/
def storyTwo : Story :=
  { ID := 2, By := "carol", Score := 7, Timestamp := 1500,
    Title := "t2", URL := "http://u2", Text := "" }

/-- Story with the same timestamp as storyTieB but a different id. -/
def storyTieA : Story :=
  { ID := 1, By := "a", Score := 1, Timestamp := 100,
    Title := "ta", URL := "http://a", Text := "" }

/-- Story with the same timestamp as storyTieA but a different id. -/
def storyTieB : Story :=
  { ID := 2, By := "b", Score := 2, Timestamp := 100,
    Title := "tb", URL := "http://b", Text := "" }

/-- Fetch stub resolving ids 1 and 2, failing otherwise. -/
def fetchGood : Int → Except String Story := fun id =>
  if id = 1 then Except.ok storyOne
  else if id = 2 then Except.ok storyTwo
  else Except.error "unknown id"

/-- Fetch stub where id 1 succeeds and id 2 fails. -/
def fetchOneBad : Int → Except String Story := fun id =>
  if id = 1 then Except.ok storyOne
  else Except.error "connection refused"

/-- Fetch stub with a timestamp tie between ids 1 and 2. -/
def fetchTie : Int → Except String Story := fun id =>
  if id = 1 then Except.ok storyTieA
  else if id = 2 then Except.ok storyTieB
  else Except.error "unknown id"

/-- Fetch stub that fails on every id: a network-fetch stub that a test can
use to detect any attempted fetch. -/
def fetchNever : Int → Except String Story := fun _ => Except.error "network disabled"

/-- Fetch stub resolving only id 42. -/
def fetch42 : Int → Except String Story := fun id =>
  if id = 42 then Except.ok story42 else Except.error "unknown id"

/-- A story cache already holding the records for ids 1 and 2, written with
NoExpiration as getStoryFromCache does. -/
def warmHNCache : GoCache Int Story :=
  (hnStoryCache.set 0 1 storyOne NoExpiration).set 0 2 storyTwo NoExpiration

/-- Resolver stub that succeeds, returning the URL unchanged (already
canonical). -/
def resolveId : String → Except String String := fun u => Except.ok u

/-- Resolver stub that fails on every URL. -/
def resolveFail : String → Except String String := fun _ => Except.error "head failed"

/-- Feed builder stub standing for genFeed. -/
def buildStub : List FeedItem → String := fun _ => "feed-document"

/-- Concrete normalized tweet item. -/
def itemA : FeedItem := { Title := "a", Url := "https://e.example/a", Created := 10 }

/-- Concrete normalized tweet item, older than itemA. -/
def itemB : FeedItem := { Title := "b", Url := "https://e.example/b", Created := 5 }

/-- Writing one key leaves reads of any other key unchanged. -/
theorem GoCache.get_set_ne {κ α : Type} [DecidableEq κ] (c : GoCache κ α)
    (now now2 : Int) (k k2 : κ) (v : α) (d : Int) (hne : k ≠ k2) :
    (c.set now k2 v d).get now2 k = c.get now2 k := by
  simp [GoCache.get, GoCache.set, cacheFind, hne]

/-- When every fetch succeeds, the collection loop returns one story per
arriving id. -/
theorem getStoriesCollect_ok (fetch : Int → Except String Story) (now : Int) :
    ∀ (arrival : List Int) (c : GoCache Int Story),
      (∀ id ∈ arrival, exOk (fetch id) = true) →
      ∃ ss c2, getStoriesCollect fetch now arrival c = (Except.ok ss, c2) ∧
        ss.length = arrival.length := by
  intro arrival
  induction arrival with
  | nil => exact fun c _ => ⟨[], c, rfl, rfl⟩
  | cons id rest ih =>
    intro c h
    have hrest : ∀ i ∈ rest, exOk (fetch i) = true :=
      fun i hi => h i (List.mem_cons_of_mem id hi)
    cases hget : GoCache.get c now id with
    | some s =>
      rcases ih c hrest with ⟨ss, c2, hc, hlen⟩
      refine ⟨s :: ss, c2, ?_, by simp [hlen]⟩
      simp [getStoriesCollect, getStoryFromCache, hget, hc]
    | none =>
      have hid := h id (List.mem_cons_self id rest)
      cases hfetch : fetch id with
      | error e => rw [hfetch] at hid; simp [exOk] at hid
      | ok s =>
        rcases ih (GoCache.set c now id s NoExpiration) hrest with ⟨ss, c2, hc, hlen⟩
        refine ⟨s :: ss, c2, ?_, by simp [hlen]⟩
        simp [getStoriesCollect, getStoryFromCache, hget, hfetch, hc]

/-- If some id in the arrival order has a failing fetch and no cached entry,
the collection loop ends in an error. -/
theorem getStoriesCollect_aborts (fetch : Int → Except String Story) (now : Int)
    (b : Int) (hbad : exOk (fetch b) = false) :
    ∀ (arrival : List Int) (c : GoCache Int Story), b ∈ arrival →
      GoCache.get c now b = none →
      exOk (getStoriesCollect fetch now arrival c).1 = false := by
  intro arrival
  induction arrival with
  | nil => intro c hmem; exact absurd hmem (List.not_mem_nil b)
  | cons id rest ih =>
    intro c hmem hmiss
    by_cases hid : id = b
    · subst hid
      cases hfetch : fetch id with
      | ok s => rw [hfetch] at hbad; simp [exOk] at hbad
      | error e => simp [getStoriesCollect, getStoryFromCache, hmiss, hfetch, exOk]
    · have hmem2 : b ∈ rest := by
        cases List.mem_cons.mp hmem with
        | inl h => exact absurd h.symm hid
        | inr h => exact h
      cases hget : GoCache.get c now id with
      | some s =>
        have hrec := ih c hmem2 hmiss
        rcases hres : getStoriesCollect fetch now rest c with ⟨res, c3⟩
        rw [hres] at hrec
        cases res with
        | error e => simp [getStoriesCollect, getStoryFromCache, hget, hres, exOk]
        | ok ss => simp [exOk] at hrec
      | none =>
        cases hfetch : fetch id with
        | error e => simp [getStoriesCollect, getStoryFromCache, hget, hfetch, exOk]
        | ok s =>
          have hbne : b ≠ id := fun h => hid h.symm
          have hmiss2 : GoCache.get (GoCache.set c now id s NoExpiration) now b = none := by
            rw [GoCache.get_set_ne c now now b id s NoExpiration hbne]
            exact hmiss
          have hrec := ih (GoCache.set c now id s NoExpiration) hmem2 hmiss2
          rcases hres : getStoriesCollect fetch now rest (GoCache.set c now id s NoExpiration)
            with ⟨res, c3⟩
          rw [hres] at hrec
          cases res with
          | error e => simp [getStoriesCollect, getStoryFromCache, hget, hfetch, hres, exOk]
          | ok ss => simp [exOk] at hrec

/-- The batch as a whole reports failure whenever one of its ids has a
failing fetch and no cached entry. -/
theorem getStories_aborts (fetch : Int → Except String Story) (now : Int)
    (arrival : List Int) (c : GoCache Int Story) (b : Int)
    (hbad : exOk (fetch b) = false) (hmem : b ∈ arrival)
    (hmiss : GoCache.get c now b = none) :
    exOk (getStories fetch now arrival c).1 = false := by
  have h := getStoriesCollect_aborts fetch now b hbad arrival c hmem hmiss
  rcases hres : getStoriesCollect fetch now arrival c with ⟨res, c2⟩
  rw [hres] at h
  cases res with
  | error e => simp [getStories, hres, exOk]
  | ok ss => simp [exOk] at h

/-- When every resolution succeeds, the URL-fixing loop returns one item per
arriving item. -/
theorem fixAllCollect_ok (resolve : String → Except String String) :
    ∀ (arrival : List FeedItem),
      (∀ it ∈ arrival, exOk (resolve it.Url) = true) →
      ∃ xs, fixAllCollect resolve arrival = Except.ok xs ∧
        xs.length = arrival.length := by
  intro arrival
  induction arrival with
  | nil => exact fun _ => ⟨[], rfl, rfl⟩
  | cons item rest ih =>
    intro h
    have hrest : ∀ i ∈ rest, exOk (resolve i.Url) = true :=
      fun i hi => h i (List.mem_cons_of_mem item hi)
    have hitem := h item (List.mem_cons_self item rest)
    cases hres : resolve item.Url with
    | error e => rw [hres] at hitem; simp [exOk] at hitem
    | ok u =>
      rcases ih hrest with ⟨xs, hxs, hlen⟩
      refine ⟨{ item with Url := stripUtm u } :: xs, ?_, by simp [hlen]⟩
      simp [fixAllCollect, fixer, hres, hxs]

/-- A feed cache already holding the feed document, as cacheFeed writes it. -/
def warmAOFeedCache : GoCache String String :=
  aoFeedCache.set 0 "feed" "feed-document" NoExpiration

/-- Claim C1: for every batch of N normalized records in which every
enrichment call succeeds and the batch deadline does not fire, the enrichment
pool plus aggregator (getStories; fixAllUrls) returns exactly N enriched
records, sorted by creation timestamp in descending order, most recent
first. -/
theorem pool_returns_all_records_sorted
    (fetch : Int → Except String Story) (now : Int) (ids arrival : List Int)
    (c : GoCache Int Story)
    (resolve : String → Except String String) (items arrivalItems : List FeedItem)
    (hperm : arrival.Perm ids)
    (hok : ∀ id ∈ arrival, exOk (fetch id) = true)
    (hpermItems : arrivalItems.Perm items)
    (hokItems : ∀ it ∈ arrivalItems, exOk (resolve it.Url) = true) :
    (∃ out, (getStories fetch now arrival c).1 = Except.ok out ∧
      out.length = ids.length ∧ List.Sorted storyLater out) ∧
    (∃ out2, fixAllUrls resolve arrivalItems = Except.ok out2 ∧
      out2.length = items.length ∧ List.Sorted itemLater out2) := by
  constructor
  · rcases getStoriesCollect_ok fetch now arrival c hok with ⟨ss, c2, hc, hlen⟩
    refine ⟨List.insertionSort storyLater ss, ?_, ?_, List.sorted_insertionSort _ _⟩
    · simp [getStories, hc]
    · rw [(List.perm_insertionSort storyLater ss).length_eq, hlen, hperm.length_eq]
  · rcases fixAllCollect_ok resolve arrivalItems hokItems with ⟨xs, hxs, hlen⟩
    refine ⟨List.insertionSort itemLater xs, ?_, ?_, List.sorted_insertionSort _ _⟩
    · simp [fixAllUrls, hxs]
    · rw [(List.perm_insertionSort itemLater xs).length_eq, hlen, hpermItems.length_eq]

/-- Concrete instance of claim C1: a two-story batch arriving in reverse
order and a two-item batch arriving in reverse order both come back complete
and sorted. -/
theorem pool_returns_all_records_sorted_witness :
    (∃ out, (getStories fetchGood 0 [2, 1] hnStoryCache).1 = Except.ok out ∧
      out.length = ([1, 2] : List Int).length ∧ List.Sorted storyLater out) ∧
    (∃ out2, fixAllUrls resolveId [itemB, itemA] = Except.ok out2 ∧
      out2.length = ([itemA, itemB] : List FeedItem).length ∧
      List.Sorted itemLater out2) :=
  pool_returns_all_records_sorted fetchGood 0 [1, 2] [2, 1] hnStoryCache
    resolveId [itemA, itemB] [itemB, itemA]
    (by decide) (by decide) (by decide) (by decide)

/-- Claim C2 counterexample: in the batch with ids 1 and 2 where the fetch of
id 1 succeeds and the fetch of id 2 fails, the overall result is indeed an
error, but the per-item cache does end up holding the story for id 1, so the
records published to the cache by the failed batch are not zero. -/
theorem failed_batch_writes_cache_cex :
    exOk (getStories fetchOneBad 0 [1, 2] hnStoryCache).1 = false ∧
    GoCache.get (getStories fetchOneBad 0 [1, 2] hnStoryCache).2 0 1 =
      some storyOne := by
  exact ⟨by decide, by decide⟩

/-- Claim C2 amended: for every batch in which an enrichment call fails (the
failing id being absent from the per-item cache), the overall result is an
error and no enriched record list is returned; this service writes no
feed-document entry at all, but per-item story entries fetched successfully
before the failure remain in the per-item cache, as the counterexample
shows. -/
theorem failed_batch_aborts (fetch : Int → Except String Story) (now : Int)
    (arrival : List Int) (c : GoCache Int Story) (b : Int)
    (hbad : exOk (fetch b) = false) (hmem : b ∈ arrival)
    (hmiss : GoCache.get c now b = none) :
    exOk (getStories fetch now arrival c).1 = false :=
  getStories_aborts fetch now arrival c b hbad hmem hmiss

/-- Concrete instance of the amended claim C2. -/
theorem failed_batch_aborts_witness :
    exOk (getStories fetchOneBad 0 [1, 2] hnStoryCache).1 = false :=
  failed_batch_aborts fetchOneBad 0 [1, 2] hnStoryCache 2
    (by decide) (by decide) (by decide)

/-- Claim C3 counterexample: main builds the story cache with a 24-hour
default expiration, but getStoryFromCache stores every fetched story with
cache.NoExpiration, so a read of id 42 a hundred days after the write still
hits instead of missing. -/
theorem story_cache_ttl_cex :
    GoCache.get (getStoryFromCache fetch42 42 hnStoryCache 0).2.1
      (100 * CacheTime) 42 = some story42 := by decide

/-- Claim C3 amended: every entry written to the per-item story cache is
stored with NoExpiration, so a read at every later instant still returns it:
per-item entries are retained indefinitely, exactly like the feed-document
entry. -/
theorem story_cache_entry_never_expires (fetch : Int → Except String Story)
    (id : Int) (c : GoCache Int Story) (now now2 : Int) (s : Story)
    (hmiss : GoCache.get c now id = none) (hfetch : fetch id = Except.ok s) :
    GoCache.get (getStoryFromCache fetch id c now).2.1 now2 id = some s := by
  have h1 : getStoryFromCache fetch id c now =
      (Except.ok s, c.set now id s NoExpiration, true) := by
    simp [getStoryFromCache, hmiss, hfetch]
  rw [h1]
  simp [GoCache.get, GoCache.set, cacheFind, NoExpiration, DefaultExpiration]

/-- Concrete instance of the amended claim C3. -/
theorem story_cache_entry_never_expires_witness :
    GoCache.get (getStoryFromCache fetch42 42 hnStoryCache 0).2.1
      (1000000 * CacheTime) 42 = some story42 :=
  story_cache_entry_never_expires fetch42 42 hnStoryCache 0
    (1000000 * CacheTime) story42 (by decide) rfl

/-- Claim C4 counterexample: the hackernews request handler performs the
source-list network fetch on every request.  With a per-item cache already
holding every requested story (reads of ids 1 and 2 hit) and a per-item fetch
stub that fails if ever invoked, the request still fails with a 500 when the
story-list endpoint is down, and succeeds when it is up: the handler depends
on network I/O even though every cache read hits. -/
theorem hn_handler_always_fetches_cex :
    GoCache.get warmHNCache 0 1 = some storyOne ∧
    GoCache.get warmHNCache 0 2 = some storyTwo ∧
    (storyHandler (Except.error "list endpoint down") fetchNever id 0 warmHNCache
      (fun _ => "atom")).1 = HTTPReply.internalError "list endpoint down" ∧
    (storyHandler (Except.ok [1, 2]) fetchNever id 0 warmHNCache
      (fun _ => "atom")).1 = HTTPReply.ok "atom" := by
  exact ⟨by decide, by decide, rfl, rfl⟩

/-- Claim C4 amended: in the atlasobscura path a feed-cache hit is returned
immediately, with the cache unchanged and without running the inline fill
(hence no reader fetch and no enrichment call); the hackernews handler
instead runs the source-list fetch on every request, so its result follows
the source-list response whatever the per-item cache holds, and only the
per-item story fetches are skipped on per-item cache hits. -/
theorem feed_cache_hit_no_fill
    (readerItems : Except String (List FeedItem))
    (resolve : String → Except String String) (build : List FeedItem → String)
    (now : Int) (c : GoCache String String) (s : String)
    (h : GoCache.get c now "feed" = some s)
    (e2 : String) (fetch : Int → Except String Story)
    (sched : List Int → List Int) (now2 : Int) (hc : GoCache Int Story) :
    fetchCachedFeed readerItems resolve build now c =
      (ServeOutcome.served s, c, false) ∧
    (getTopStories (Except.error e2) fetch sched now2 hc).1 = Except.error e2 := by
  constructor
  · simp [fetchCachedFeed, h]
  · rfl

/-- Concrete instance of the amended claim C4: the hit is served even though
both the reader and the resolver stubs would fail if invoked. -/
theorem feed_cache_hit_no_fill_witness :
    fetchCachedFeed (Except.error "reader down") resolveFail buildStub 3
      warmAOFeedCache = (ServeOutcome.served "feed-document", warmAOFeedCache, false) ∧
    (getTopStories (Except.error "down") fetchNever id 0 warmHNCache).1 =
      Except.error "down" :=
  feed_cache_hit_no_fill (Except.error "reader down") resolveFail buildStub 3
    warmAOFeedCache "feed-document" (by decide) "down" fetchNever id 0 warmHNCache

/-- Claim C5 (code bug): on a first request with an empty feed cache, a
reader failure leaves the feed key unset and the handler panics on the nil
type assertion feed.(string) instead of returning an error response, and an
enrichment failure hits the log.Fatal inside fetchFeedItems and kills the
whole process.  Neither failing fill produces an error response. -/
theorem first_request_failure_crashes :
    (fetchCachedFeed (Except.error "twitter down") resolveId buildStub 0
      aoFeedCache).1 = ServeOutcome.panicked ∧
    (fetchCachedFeed (Except.ok [itemA]) resolveFail buildStub 0
      aoFeedCache).1 = ServeOutcome.fatalExit "head failed" := by
  exact ⟨rfl, rfl⟩

/-- Claim C6 counterexample: a non-2xx response is not an error for
getStory: the status code is never inspected and the json.Unmarshal error is
discarded, so a 404 with an undecodable body yields the zero story with the
requested id patched in, and no error. -/
theorem getStory_non2xx_cex :
    getStory (fun _ => none)
      (Except.ok { statusCode := 404, body := "Not Found" }) 42 =
      Except.ok { (default : Story) with ID := 42 } := rfl

/-- Claim C6 amended: a network (transport) failure does make getStory return
an error, and such an error propagates through the pool and aggregator so the
whole in-flight batch aborts; but a non-2xx HTTP response is not detected
(see the counterexample). -/
theorem getStory_network_failure_propagates (decode : String → Option Story)
    (e : String) (id : Int) (fetch : Int → Except String Story) (now : Int)
    (arrival : List Int) (c : GoCache Int Story) (b : Int)
    (hbad : fetch b = Except.error e) (hmem : b ∈ arrival)
    (hmiss : GoCache.get c now b = none) :
    getStory decode (Except.error e) id = Except.error e ∧
    exOk (getStories fetch now arrival c).1 = false := by
  refine ⟨rfl, getStories_aborts fetch now arrival c b ?_ hmem hmiss⟩
  rw [hbad]; rfl

/-- Concrete instance of the amended claim C6. -/
theorem getStory_network_failure_propagates_witness :
    getStory (fun _ => none) (Except.error "connection refused") 7 =
      Except.error "connection refused" ∧
    exOk (getStories fetchOneBad 0 [2, 1] hnStoryCache).1 = false :=
  getStory_network_failure_propagates (fun _ => none) "connection refused" 7
    fetchOneBad 0 [2, 1] hnStoryCache 2 rfl (by decide) (by decide)

/-- Claim C7: when the per-item cache already holds an entry for a story id,
a batch requesting that id completes its enrichment by returning the cached
record, without invoking the network fetch (the stub used by the witness
fails if ever invoked, and the reported fetch flag is false). -/
theorem story_cache_hit_skips_fetch (fetch : Int → Except String Story)
    (id : Int) (c : GoCache Int Story) (now : Int) (s : Story)
    (h : GoCache.get c now id = some s) :
    getStoryFromCache fetch id c now = (Except.ok s, c, false) := by
  simp [getStoryFromCache, h]

/-- Concrete instance of claim C7: id 42 pre-populated, fetch stub disabled,
lookup still succeeds from the cache. -/
theorem story_cache_hit_skips_fetch_witness :
    getStoryFromCache fetchNever 42 (hnStoryCache.set 0 42 story42 NoExpiration)
      5 = (Except.ok story42, hnStoryCache.set 0 42 story42 NoExpiration, false) :=
  story_cache_hit_skips_fetch fetchNever 42
    (hnStoryCache.set 0 42 story42 NoExpiration) 5 story42 (by decide)

/-- Claim C8 counterexample: two runs of the aggregation over the same
multiset of enriched records (ids 1 and 2, equal timestamps, distinct
records), collected in the two different arrival orders, put the tied records
in different output orders. -/
theorem aggregator_tie_order_cex :
    ([1, 2] : List Int).Perm [2, 1] ∧
    (getStories fetchTie 0 [1, 2] hnStoryCache).1 =
      Except.ok [storyTieA, storyTieB] ∧
    (getStories fetchTie 0 [2, 1] hnStoryCache).1 =
      Except.ok [storyTieB, storyTieA] ∧
    storyTieA.Timestamp = storyTieB.Timestamp ∧ storyTieA ≠ storyTieB := by
  exact ⟨by decide, rfl, rfl, rfl, by decide⟩

/-- Claim C8 amended: the aggregated output is always totally ordered by
timestamp, most recent first, and that is all the sort guarantees: the
relative order of records with equal timestamps follows the arrival order of
the pool results and so differs between runs (see the counterexample). -/
theorem aggregator_output_sorted (fetch : Int → Except String Story)
    (now : Int) (arrival : List Int) (c : GoCache Int Story) (out : List Story)
    (h : (getStories fetch now arrival c).1 = Except.ok out) :
    List.Sorted storyLater out := by
  unfold getStories at h
  rcases hres : getStoriesCollect fetch now arrival c with ⟨res, c2⟩
  rw [hres] at h
  cases res with
  | error e => simp at h
  | ok ss =>
    simp at h
    rw [← h]
    exact List.sorted_insertionSort _ _

/-- Concrete instance of the amended claim C8. -/
theorem aggregator_output_sorted_witness :
    List.Sorted storyLater [storyOne, storyTwo] :=
  aggregator_output_sorted fetchGood 0 [1, 2] hnStoryCache
    [storyOne, storyTwo] rfl

/-- Claim C9 counterexample: the rewrite is not a removal of the individual
utm query parameters.  A utm parameter that does not open the query string is
kept in full (the first URL is returned unchanged although it holds
utm_source), and a non-utm parameter standing after a utm one is deleted with
it (the second URL loses its id parameter). -/
theorem utm_strip_cex :
    stripUtm "https://site.example/a?id=1&utm_source=x" =
      "https://site.example/a?id=1&utm_source=x" ∧
    stripUtm "https://site.example/a?utm_source=x&id=1" =
      "https://site.example/a" := by
  exact ⟨rfl, rfl⟩

/-- Claim C9 amended: the rewrite deletes the suffix that starts at the first
occurrence of the literal text question-mark utm_ and runs to the end of the
URL.  On the spec example, whose query string starts with a utm parameter,
this yields exactly the URL without its query, and fixer stores that stripped
URL with no error. -/
theorem utm_strip_spec_example :
    stripUtm "https://site.example/a?utm_source=x&utm_campaign=y" =
      "https://site.example/a" ∧
    fixer (fun _ => Except.ok "https://site.example/a?utm_source=x&utm_campaign=y")
      itemA = ({ itemA with Url := "https://site.example/a" }, none) := by
  have h : stripUtm "https://site.example/a?utm_source=x&utm_campaign=y" =
      "https://site.example/a" := rfl
  exact ⟨h, by simp [fixer, h]⟩

/-- Claim C10: getTopStoryIDs returns the upstream ids sorted ascending, and
returns the identical output for every upstream ordering of the same ids:
the upstream rank order is discarded entirely, so nothing downstream can
depend on it. -/
theorem top_ids_sorted_rank_discarded (ids ids2 : List Int)
    (hperm : ids.Perm ids2) :
    ∃ out, getTopStoryIDs (Except.ok ids) = Except.ok out ∧
      List.Sorted (fun a b : Int => a ≤ b) out ∧ out.Perm ids ∧
      getTopStoryIDs (Except.ok ids2) = Except.ok out := by
  refine ⟨List.insertionSort (fun a b : Int => a ≤ b) ids, rfl,
    List.sorted_insertionSort _ _, List.perm_insertionSort _ _, ?_⟩
  have h1 : (List.insertionSort (fun a b : Int => a ≤ b) ids2).Perm
      (List.insertionSort (fun a b : Int => a ≤ b) ids) :=
    ((List.perm_insertionSort _ ids2).trans hperm.symm).trans
      (List.perm_insertionSort _ ids).symm
  have h2 := List.eq_of_perm_of_sorted h1
    (List.sorted_insertionSort _ _) (List.sorted_insertionSort _ _)
  simp [getTopStoryIDs, h2]

/-- Concrete instance of claim C10: two upstream rankings of the ids 1, 2, 3
produce the same sorted output. -/
theorem top_ids_sorted_rank_discarded_witness :
    ∃ out, getTopStoryIDs (Except.ok [3, 1, 2]) = Except.ok out ∧
      List.Sorted (fun a b : Int => a ≤ b) out ∧ out.Perm [3, 1, 2] ∧
      getTopStoryIDs (Except.ok [2, 3, 1]) = Except.ok out :=
  top_ids_sorted_rank_discarded [3, 1, 2] [2, 3, 1] (by decide)
